import Mathlib

/-!
Verification of the Jira/Confluence → Dify synchronization engine.

Shallow embedding of the reconciliation core:
  * `validate_config`        — src/main.py, `validate_config` (lines 31-57)
  * change detection         — src/main.py, `run_sync` (lines 144-170)
  * per-item reconcile step  — src/main.py, `run_sync` (lines 133-206)
  * full run / report        — src/main.py, `run_sync` (lines 59-241)
  * tracker store            — src/database.py, `get_sync_record` / `update_sync_record`
  * destination publisher    — src/dify_client.py, `upload_document_to_dify`

External effects (HTTP calls, database connectivity) are modelled by an
environment of oracles; timestamp parsing by the external `dateutil`
library is modelled by `Option` results carried on the inputs.
-/

/-- Python ``datetime`` value: a naive wall-clock reading (modelled as seconds
on an abstract linear clock) together with an optional UTC offset
(`tz = none` encodes a naive datetime, `tz = some o` an aware one with
offset `o` seconds). -/
structure PyDatetime where
  naive : Int
  tz : Option Int
  deriving Repr, DecidableEq

/-- Python ``dt.replace(tzinfo=None)``: drop the offset, keep the wall-clock
fields. -/
def PyDatetime.replaceTzNone (d : PyDatetime) : PyDatetime :=
  ⟨d.naive, none⟩

/-- Python ``>`` on two datetimes of equal awareness: naive datetimes compare
by wall-clock value, aware datetimes compare as absolute instants
(wall-clock minus offset).  The mixed case raises ``TypeError`` in Python and
is unreachable from `compareTimes`, which normalizes first; the catch-all
arm only keeps this function total. -/
def pyDatetimeGt (a b : PyDatetime) : Bool :=
  match a.tz, b.tz with
  | some ta, some tb => decide (a.naive - ta > b.naive - tb)
  | _, _ => decide (a.naive > b.naive)

/-- Timestamp comparison of src/main.py lines 159-170: if exactly one side is
timezone-aware, strip its offset and compare naive; otherwise compare
directly. -/
def compareTimes (remote localT : PyDatetime) : Bool :=
  if remote.tz.isSome && localT.tz.isNone then
    pyDatetimeGt remote.replaceTzNone localT
  else if remote.tz.isNone && localT.tz.isSome then
    pyDatetimeGt remote localT.replaceTzNone
  else
    pyDatetimeGt remote localT

/-- Stored `last_synced_update_time` as read back from the tracker table:
either a string (SQLite DATETIME round-trips as text) whose parse by
``dateutil.parser.parse`` succeeds (`str (some d)`) or fails (`str none`),
or a value already materialized as a datetime object. -/
inductive StoredTime where
  | str (parsed : Option PyDatetime)
  | dt (d : PyDatetime)
  deriving Repr, DecidableEq

/-- Row of the ``sync_tracker`` table (src/database.py lines 32-41). -/
structure TrackerRecord where
  source_id : String
  source_type : String
  last_synced_update_time : StoredTime
  dify_document_id : String
  last_sync_status : String
  deriving Repr, DecidableEq

/-- Item produced by a source adapter (src/connectors.py): id, type tag,
remote last-modified timestamp and content.  `updated_at = none` models a
value on which ``dateutil.parser.isoparse`` raises. -/
structure SyncItem where
  id : String
  type : String
  updated_at : Option PyDatetime
  content : String
  deriving Repr, DecidableEq

/-- Change-detection decision of src/main.py lines 144-170: no tracked
record forces a sync; an unparsable stored timestamp string forces a sync;
otherwise sync iff the remote timestamp compares strictly greater. -/
def should_sync_fn (remote : PyDatetime) (rec? : Option TrackerRecord) : Bool :=
  match rec? with
  | none => true
  | some rec =>
    match rec.last_synced_update_time with
    | .str none => true
    | .str (some lt) => compareTimes remote lt
    | .dt lt => compareTimes remote lt

/-- Tracker database contents: the rows of ``sync_tracker``, at most one per
`source_id` (maintained by `dbUpsert`). -/
abbrev TrackerDB := List TrackerRecord

/-- Row lookup by primary key (the ``SELECT ... WHERE source_id = :id``
of src/database.py lines 82-85, taking the first matching row). -/
def dbLookup (db : TrackerDB) (id : String) : Option TrackerRecord :=
  match db with
  | [] => none
  | x :: xs => if x.source_id = id then some x else dbLookup xs id

/-- REPLACE-INTO upsert: overwrite the row with the same `source_id` in
place, else append (src/database.py lines 102-105). -/
def dbUpsert (db : TrackerDB) (r : TrackerRecord) : TrackerDB :=
  match db with
  | [] => [r]
  | x :: xs => if x.source_id == r.source_id then r :: xs else x :: dbUpsert xs r

/-- Outcome of one call to the destination publisher
(src/dify_client.py `upload_document_to_dify`): either a normal return
(`None` or a document-id string) or an exception escaping the function. -/
inductive PubResult where
  | ret (r : Option String)
  | raises
  deriving Repr, DecidableEq

/-- Oracles for the external effects of one run: the publisher outcome per
(name, content) pair, and whether the tracker store raises on a read or a
write for a given `source_id`. -/
structure Env where
  publish : String → String → PubResult
  readFails : String → Bool
  writeFails : String → Bool

/-- Python truthiness of an optional string: ``None`` and ``""`` are falsy. -/
def strTruthy : Option String → Bool
  | none => false
  | some s => !(s == "")

/-- Tracker read (src/database.py `get_sync_record`): any exception is
caught and reported as `none`, indistinguishable from an absent row. -/
def get_sync_record (env : Env) (db : TrackerDB) (id : String) : Option TrackerRecord :=
  if env.readFails id then none else dbLookup db id

/-- Tracker write (src/database.py `update_sync_record`): upsert the row;
any exception is caught and logged, leaving the table unchanged and the
caller uninformed.  The timestamp is stored by SQLite as text and parses
back to the same value, modelled as `.str (some updated_at)`. -/
def update_sync_record (env : Env) (db : TrackerDB) (source_id source_type : String)
    (updated_at : PyDatetime) (dify_doc_id status : String) : TrackerDB :=
  if env.writeFails source_id then db
  else dbUpsert db ⟨source_id, source_type, .str (some updated_at), dify_doc_id, status⟩

/-- Tri-state outcome of one reconcile-loop iteration. -/
inductive Outcome where
  | synced
  | skipped
  | failed
  deriving Repr, DecidableEq

/-- Per-item step of the reconcile loop (src/main.py lines 133-206).
`Except.error ()` models an exception escaping the loop body to the
top-level handler: ``parser.isoparse`` raising on the remote timestamp, or
the publisher raising.  Both happen before any tracker write for the item,
so the table is unchanged on error. -/
def processItem (env : Env) (db : TrackerDB) (item : SyncItem) :
    Except Unit (TrackerDB × Outcome) :=
  match item.updated_at with
  | none => .error ()
  | some remote =>
    if should_sync_fn remote (get_sync_record env db item.id) then
      match env.publish item.id item.content with
      | .raises => .error ()
      | .ret dify_id =>
        if strTruthy dify_id then
          .ok (update_sync_record env db item.id item.type remote (dify_id.getD "") "SUCCESS",
               .synced)
        else
          .ok (update_sync_record env db item.id item.type remote "" "FAILED", .failed)
    else
      .ok (db, .skipped)

/-- Running counters of the reconcile loop. -/
structure Counts where
  synced : Nat
  skipped : Nat
  failed : Nat
  deriving Repr, DecidableEq

/-- Bump the counter selected by an outcome. -/
def Counts.bump (c : Counts) : Outcome → Counts
  | .synced => ⟨c.synced + 1, c.skipped, c.failed⟩
  | .skipped => ⟨c.synced, c.skipped + 1, c.failed⟩
  | .failed => ⟨c.synced, c.skipped, c.failed + 1⟩

/-- Result of the reconcile loop: completed with final table and counts, or
aborted by an exception (the table keeps the writes made before the
failing item). -/
inductive LoopRes where
  | done (db : TrackerDB) (c : Counts)
  | aborted (db : TrackerDB)
  deriving Repr, DecidableEq

/-- The reconcile loop of src/main.py lines 133-206: process items in fetch
order; the first exception escapes to the top-level handler. -/
def reconcileLoop (env : Env) (db : TrackerDB) (items : List SyncItem) (c : Counts) : LoopRes :=
  match items with
  | [] => .done db c
  | item :: rest =>
    match processItem env db item with
    | .error () => .aborted db
    | .ok (db', o) => reconcileLoop env db' rest (c.bump o)

/-- Environment settings for the run: the six required variables of
src/main.py `validate_config` (lines 33-40).  `none` models an unset
variable (``os.getenv`` returning ``None``). -/
structure Config where
  atlassian_url : Option String
  atlassian_email : Option String
  atlassian_api_token : Option String
  dify_api_key : Option String
  dify_api_url : Option String
  dify_dataset_id : Option String
  deriving Repr, DecidableEq

/-- Name-value pairs in the dictionary order of src/main.py lines 33-40. -/
def requiredConfigs (c : Config) : List (String × Option String) :=
  [("ATLASSIAN_URL", c.atlassian_url),
   ("ATLASSIAN_EMAIL", c.atlassian_email),
   ("ATLASSIAN_API_TOKEN", c.atlassian_api_token),
   ("DIFY_API_KEY", c.dify_api_key),
   ("DIFY_API_URL", c.dify_api_url),
   ("DIFY_DATASET_ID", c.dify_dataset_id)]

/-- Python ``s.startswith(pre)``, evaluated on the character sequences of
the two strings. -/
def strStartsWith (s pre : String) : Bool :=
  pre.data.isPrefixOf s.data

/-- Placeholder test of src/main.py line 48: the value still starts with the
template marker ``粘贴`` or ``your-``. -/
def isPlaceholder (v : String) : Bool :=
  strStartsWith v "粘贴" || strStartsWith v "your-"

/-- Names collected into ``missing`` by src/main.py lines 45-47: value unset
or empty (falsy). -/
def missingNames (c : Config) : List String :=
  ((requiredConfigs c).filter (fun p => !(strTruthy p.2))).map Prod.fst

/-- Names collected into ``invalid`` by src/main.py lines 48-49: value
truthy but still a placeholder. -/
def invalidNames (c : Config) : List String :=
  ((requiredConfigs c).filter (fun p => strTruthy p.2 && isPlaceholder (p.2.getD ""))).map Prod.fst

/-- The exception raised by `validate_config`, keeping the enumerated names
that its ``ValueError`` message interpolates. -/
inductive ConfigError where
  | missingErr (names : List String)
  | invalidErr (names : List String)
  deriving Repr, DecidableEq

deriving instance DecidableEq for Except

/-- Names the error message enumerates (the ``', '.join(...)`` argument of
src/main.py lines 52 and 55). -/
def ConfigError.enumerated : ConfigError → List String
  | .missingErr names => names
  | .invalidErr names => names

/-- Rendering of the ``ValueError`` message (src/main.py lines 52 and 55). -/
def ConfigError.message : ConfigError → String
  | .missingErr names =>
      "缺少必要配置: " ++ String.intercalate ", " names ++ "\n请在 .env 文件中配置这些变量。"
  | .invalidErr names =>
      "配置值无效（使用了默认模板值）: " ++ String.intercalate ", " names ++ "\n请填写真实的配置信息。"

/-- Configuration validation of src/main.py lines 31-57: raise on any
missing name first (enumerating all missing names), else raise on any
placeholder name (enumerating all placeholder names), else pass. -/
def validate_config (c : Config) : Except ConfigError Unit :=
  if missingNames c ≠ [] then .error (.missingErr (missingNames c))
  else if invalidNames c ≠ [] then .error (.invalidErr (invalidNames c))
  else .ok ()

/-- Run report dictionary of src/main.py lines 68-78 (wall-clock
``start_time`` / ``end_time`` are outside the model). -/
structure RunResult where
  status : String
  synced : Nat
  skipped : Nat
  failed : Nat
  total : Nat
  message : String
  error : Option String
  deriving Repr, DecidableEq

/-- Everything a run produces: the report, the tracker table afterwards, and
whether any source fetch was performed. -/
structure RunOut where
  report : RunResult
  db : TrackerDB
  fetched : Bool
  deriving Repr, DecidableEq

/-- Completion message of src/main.py line 220. -/
def syncMessage (c : Counts) : String :=
  "同步完成: 成功" ++ toString c.synced ++ "条, 跳过" ++ toString c.skipped ++
    "条, 失败" ++ toString c.failed ++ "条"

/-- The orchestrator `run_sync` of src/main.py lines 59-241, with the source
adapters abstracted: `items` is the combined list their fetches would
return.  Config failure aborts before any fetch with the ``ValueError``
handler of lines 225-232 (counts remain at their initial zeros); an empty
fetch returns early (lines 118-122); an exception escaping the loop hits
the generic handler of lines 233-239 (counts remain zero, table keeps
earlier writes); otherwise lines 216-223 aggregate the counts with
``status = success``. -/
def run_sync (cfg : Config) (env : Env) (db : TrackerDB) (items : List SyncItem) : RunOut :=
  match validate_config cfg with
  | .error e =>
      ⟨⟨"error", 0, 0, 0, 0, "", some ("配置错误: " ++ e.message)⟩, db, false⟩
  | .ok _ =>
    if items.isEmpty then
      ⟨⟨"success", 0, 0, 0, 0, "没有需要同步的数据", none⟩, db, true⟩
    else
      match reconcileLoop env db items ⟨0, 0, 0⟩ with
      | .done db' c =>
          ⟨⟨"success", c.synced, c.skipped, c.failed, items.length, syncMessage c, none⟩,
           db', true⟩
      | .aborted db' =>
          ⟨⟨"error", 0, 0, 0, 0, "", some "同步任务发生意外错误"⟩, db', true⟩

/-- Parsed JSON body of a successful Dify response, keeping the three fields
the client probes for a document id (src/dify_client.py line 62); a field
is `none` when absent. -/
structure DifyJson where
  document_id_nested : Option String
  id_top : Option String
  document_id_top : Option String
  deriving Repr, DecidableEq

/-- Outcome of the HTTP exchange inside `upload_document_to_dify`: a
``requests`` exception (including ``raise_for_status`` on a bad status), or
a successful response with parsed JSON. -/
inductive HttpResult where
  | reqError
  | success (r : DifyJson)
  deriving Repr, DecidableEq

/-- Python ``or`` restricted to optional strings: keep the left value when
truthy, else the right. -/
def pyOrStr (a b : Option String) : Option String :=
  if strTruthy a then a else b

/-- Document-id extraction of src/dify_client.py line 62:
``result.get('document', {}).get('id') or result.get('id') or
result.get('document_id')``. -/
def extractDocId (r : DifyJson) : Option String :=
  pyOrStr (pyOrStr r.document_id_nested r.id_top) r.document_id_top

/-- The publisher `upload_document_to_dify` of src/dify_client.py lines
11-76: `none` when the client is unconfigured or the request fails; on a
successful response, the extracted id when truthy, else the sentinel
``"uploaded_without_id"`` (lines 64-69). -/
def upload_document_to_dify (configured : Bool) (h : HttpResult) : Option String :=
  if !configured then none
  else
    match h with
    | .reqError => none
    | .success r =>
      let doc_id := extractDocId r
      if strTruthy doc_id then doc_id else some "uploaded_without_id"

/-- Predicate: the publisher call for this item returns normally (possibly
``None``) rather than raising. -/
def pubReturns (env : Env) (i : SyncItem) : Bool :=
  match env.publish i.id i.content with
  | .ret _ => true
  | .raises => false

/-- Predicate: the publisher call for this item returns a truthy document
id, taking the ``if dify_id:`` branch of src/main.py line 183. -/
def pubSucceeds (env : Env) (i : SyncItem) : Bool :=
  match env.publish i.id i.content with
  | .ret r => strTruthy r
  | .raises => false

/-- Specification-side comparison, written from §4.1 of the spec rather
than the source: when exactly one side carries an offset, strip that offset
and compare both as naive times; otherwise compare directly. -/
def specNormalizedGt (remote stored : PyDatetime) : Bool :=
  if remote.tz.isSome ≠ stored.tz.isSome then
    decide (remote.naive > stored.naive)
  else
    pyDatetimeGt remote stored

theorem dbLookup_upsert_self (db : TrackerDB) (r : TrackerRecord) :
    dbLookup (dbUpsert db r) r.source_id = some r := by
  induction db with
  | nil => simp [dbUpsert, dbLookup]
  | cons x xs ih =>
    by_cases h : x.source_id = r.source_id
    · simp [dbUpsert, h, dbLookup]
    · simp [dbUpsert, h, dbLookup, ih]

theorem dbLookup_upsert_ne (db : TrackerDB) (r : TrackerRecord) (id : String)
    (h : id ≠ r.source_id) :
    dbLookup (dbUpsert db r) id = dbLookup db id := by
  induction db with
  | nil => simp [dbUpsert, dbLookup, Ne.symm h]
  | cons x xs ih =>
    by_cases hx : x.source_id = r.source_id
    · have hxid : x.source_id ≠ id := by rw [hx]; exact Ne.symm h
      simp [dbUpsert, hx, dbLookup, Ne.symm h, hxid]
    · by_cases hxi : x.source_id = id
      · simp [dbUpsert, hx, dbLookup, hxi, h]
      · simp [dbUpsert, hx, dbLookup, hxi, ih]

theorem dbLookup_update_self (env : Env) (db : TrackerDB) (sid st : String)
    (t : PyDatetime) (did s : String) (hw : env.writeFails sid = false) :
    dbLookup (update_sync_record env db sid st t did s) sid =
      some ⟨sid, st, .str (some t), did, s⟩ := by
  simp only [update_sync_record, hw, Bool.false_eq_true, if_false]
  exact dbLookup_upsert_self db ⟨sid, st, .str (some t), did, s⟩

theorem dbLookup_update_ne (env : Env) (db : TrackerDB) (sid st : String)
    (t : PyDatetime) (did s : String) (id : String) (h : id ≠ sid) :
    dbLookup (update_sync_record env db sid st t did s) id = dbLookup db id := by
  unfold update_sync_record
  by_cases hw : env.writeFails sid
  · simp [hw]
  · simp only [hw, Bool.false_eq_true, if_false]
    exact dbLookup_upsert_ne db _ id h

theorem compareTimes_self (d : PyDatetime) : compareTimes d d = false := by
  cases htz : d.tz <;> simp [compareTimes, htz, pyDatetimeGt]

theorem compareTimes_eq_specNormalizedGt (remote stored : PyDatetime) :
    compareTimes remote stored = specNormalizedGt remote stored := by
  cases hr : remote.tz <;> cases hs : stored.tz <;>
    simp [compareTimes, specNormalizedGt, hr, hs, pyDatetimeGt, PyDatetime.replaceTzNone]

theorem processItem_ok (env : Env) (db : TrackerDB) (i : SyncItem)
    (h1 : i.updated_at.isSome) (h2 : pubReturns env i = true) :
    ∃ db' o, processItem env db i = .ok (db', o) := by
  obtain ⟨t, ht⟩ := Option.isSome_iff_exists.mp h1
  by_cases hs : should_sync_fn t (get_sync_record env db i.id)
  · unfold pubReturns at h2
    cases hp : env.publish i.id i.content with
    | ret r =>
      by_cases htr : strTruthy r
      · exact ⟨update_sync_record env db i.id i.type t (r.getD "") "SUCCESS", .synced,
          by simp [processItem, ht, hs, hp, htr]⟩
      · exact ⟨update_sync_record env db i.id i.type t "" "FAILED", .failed,
          by simp [processItem, ht, hs, hp, htr]⟩
    | raises => rw [hp] at h2; simp at h2
  · exact ⟨db, .skipped, by simp [processItem, ht, hs]⟩

theorem loopCompletes (env : Env) : ∀ (items : List SyncItem) (db : TrackerDB) (c : Counts),
    (∀ i ∈ items, i.updated_at.isSome ∧ pubReturns env i = true) →
    ∃ db' c', reconcileLoop env db items c = .done db' c' := by
  intro items
  induction items with
  | nil => intro db c _; exact ⟨db, c, rfl⟩
  | cons x xs ih =>
    intro db c h
    obtain ⟨h1, h2⟩ := h x (by simp)
    obtain ⟨db1, o, hpi⟩ := processItem_ok env db x h1 h2
    obtain ⟨db', c', hl⟩ := ih db1 (c.bump o) (fun i hi => h i (List.mem_cons_of_mem x hi))
    exact ⟨db', c', by simp [reconcileLoop, hpi, hl]⟩

theorem run_sync_status_success (cfg : Config) (env : Env) (db : TrackerDB)
    (items : List SyncItem)
    (hcfg : validate_config cfg = .ok ())
    (h : ∀ i ∈ items, i.updated_at.isSome ∧ pubReturns env i = true) :
    (run_sync cfg env db items).report.status = "success" := by
  unfold run_sync
  rw [hcfg]
  by_cases he : items.isEmpty
  · simp [he]
  · obtain ⟨db', c', hl⟩ := loopCompletes env items db ⟨0, 0, 0⟩ h
    simp [he, hl]

theorem skipLoop (env : Env) : ∀ (items : List SyncItem) (db : TrackerDB) (c : Counts),
    (∀ i ∈ items, ∃ t, i.updated_at = some t ∧
       should_sync_fn t (get_sync_record env db i.id) = false) →
    reconcileLoop env db items c = .done db ⟨c.synced, c.skipped + items.length, c.failed⟩ := by
  intro items
  induction items with
  | nil => intro db c _; simp [reconcileLoop]
  | cons x xs ih =>
    intro db c h
    obtain ⟨t, ht, hs⟩ := h x (by simp)
    have hpi : processItem env db x = .ok (db, .skipped) := by
      simp [processItem, ht, hs]
    have hrest := ih db (c.bump .skipped) (fun i hi => h i (List.mem_cons_of_mem x hi))
    simp only [Counts.bump] at hrest
    simp only [reconcileLoop, hpi, hrest, Counts.bump, List.length_cons,
      LoopRes.done.injEq, Counts.mk.injEq, true_and, and_true]
    omega

theorem freshLoop (env : Env) : ∀ (items : List SyncItem) (db : TrackerDB) (c : Counts),
    (items.map SyncItem.id).Nodup →
    (∀ i ∈ items, i.updated_at.isSome ∧ pubReturns env i = true ∧
       env.readFails i.id = false ∧ dbLookup db i.id = none) →
    ∃ db',
      reconcileLoop env db items c =
        .done db' ⟨c.synced + (items.filter (fun i => pubSucceeds env i)).length,
                   c.skipped,
                   c.failed + (items.filter (fun i => !pubSucceeds env i)).length⟩ ∧
      (∀ id, id ∉ items.map SyncItem.id → dbLookup db' id = dbLookup db id) ∧
      (∀ i ∈ items, pubSucceeds env i = true → env.writeFails i.id = false →
         ∃ t d, i.updated_at = some t ∧
           dbLookup db' i.id = some ⟨i.id, i.type, .str (some t), d, "SUCCESS"⟩) := by
  intro items
  induction items with
  | nil =>
    intro db c _ _
    exact ⟨db, by simp [reconcileLoop], fun id _ => rfl, by simp⟩
  | cons x xs ih =>
    intro db c hnd h
    obtain ⟨h1, h2, h3, h4⟩ := h x (by simp)
    obtain ⟨t, ht⟩ := Option.isSome_iff_exists.mp h1
    have hget : get_sync_record env db x.id = none := by
      simp [get_sync_record, h3, h4]
    have hss : should_sync_fn t (get_sync_record env db x.id) = true := by
      rw [hget]; rfl
    have hnd' : x.id ∉ xs.map SyncItem.id ∧ (xs.map SyncItem.id).Nodup := by
      rw [List.map_cons, List.nodup_cons] at hnd; exact hnd
    unfold pubReturns at h2
    cases hp : env.publish x.id x.content with
    | raises => rw [hp] at h2; simp at h2
    | ret r =>
      by_cases htr : strTruthy r
      · -- publisher succeeded: SUCCESS row, synced outcome
        have hps : pubSucceeds env x = true := by simp [pubSucceeds, hp, htr]
        have hpi : processItem env db x =
            .ok (update_sync_record env db x.id x.type t (r.getD "") "SUCCESS", .synced) := by
          simp [processItem, ht, hss, hp, htr]
        have hxs : ∀ i ∈ xs, i.updated_at.isSome ∧ pubReturns env i = true ∧
            env.readFails i.id = false ∧
            dbLookup (update_sync_record env db x.id x.type t (r.getD "") "SUCCESS") i.id
              = none := by
          intro i hi
          obtain ⟨a, b, cc, d⟩ := h i (List.mem_cons_of_mem x hi)
          refine ⟨a, b, cc, ?_⟩
          rw [dbLookup_update_ne env db x.id x.type t (r.getD "") "SUCCESS" i.id ?_, d]
          intro heq
          exact hnd'.1 (heq ▸ List.mem_map_of_mem SyncItem.id hi)
        obtain ⟨db', hloop, hpres', hrec⟩ :=
          ih (update_sync_record env db x.id x.type t (r.getD "") "SUCCESS")
            (c.bump .synced) hnd'.2 hxs
        simp only [Counts.bump] at hloop
        refine ⟨db', ?_, ?_, ?_⟩
        · simp only [reconcileLoop, hpi, hloop, Counts.bump, List.filter_cons, hps,
            Bool.not_true, if_true, if_false, List.length_cons, LoopRes.done.injEq,
            Counts.mk.injEq, Bool.false_eq_true, true_and, and_true]
          omega
        · intro id hid
          rw [List.map_cons, List.mem_cons] at hid
          push_neg at hid
          rw [hpres' id hid.2,
            dbLookup_update_ne env db x.id x.type t (r.getD "") "SUCCESS" id hid.1]
        · intro i hi hips hiw
          rcases List.mem_cons.mp hi with rfl | hi'
          · refine ⟨t, r.getD "", ht, ?_⟩
            rw [hpres' i.id hnd'.1]
            exact dbLookup_update_self env db i.id i.type t (r.getD "") "SUCCESS" hiw
          · exact hrec i hi' hips hiw
      · -- publisher returned no truthy id: FAILED row, failed outcome
        have hps : pubSucceeds env x = false := by simp [pubSucceeds, hp, htr]
        have hpi : processItem env db x =
            .ok (update_sync_record env db x.id x.type t "" "FAILED", .failed) := by
          simp [processItem, ht, hss, hp, htr]
        have hxs : ∀ i ∈ xs, i.updated_at.isSome ∧ pubReturns env i = true ∧
            env.readFails i.id = false ∧
            dbLookup (update_sync_record env db x.id x.type t "" "FAILED") i.id = none := by
          intro i hi
          obtain ⟨a, b, cc, d⟩ := h i (List.mem_cons_of_mem x hi)
          refine ⟨a, b, cc, ?_⟩
          rw [dbLookup_update_ne env db x.id x.type t "" "FAILED" i.id ?_, d]
          intro heq
          exact hnd'.1 (heq ▸ List.mem_map_of_mem SyncItem.id hi)
        obtain ⟨db', hloop, hpres', hrec⟩ :=
          ih (update_sync_record env db x.id x.type t "" "FAILED") (c.bump .failed)
            hnd'.2 hxs
        simp only [Counts.bump] at hloop
        refine ⟨db', ?_, ?_, ?_⟩
        · simp only [reconcileLoop, hpi, hloop, Counts.bump, List.filter_cons, hps,
            Bool.not_false, if_true, if_false, List.length_cons, LoopRes.done.injEq,
            Counts.mk.injEq, Bool.false_eq_true, true_and, and_true]
          omega
        · intro id hid
          rw [List.map_cons, List.mem_cons] at hid
          push_neg at hid
          rw [hpres' id hid.2,
            dbLookup_update_ne env db x.id x.type t "" "FAILED" id hid.1]
        · intro i hi hips hiw
          rcases List.mem_cons.mp hi with rfl | hi'
          · rw [hps] at hips; exact absurd hips (by simp)
          · exact hrec i hi' hips hiw

theorem loopAborts (env : Env) (bad : SyncItem) (hbad : bad.updated_at = none) :
    ∀ (pre : List SyncItem) (post : List SyncItem) (db : TrackerDB) (c : Counts),
    (∀ i ∈ pre, i.updated_at.isSome ∧ pubReturns env i = true) →
    ∃ db', reconcileLoop env db (pre ++ bad :: post) c = .aborted db' := by
  intro pre
  induction pre with
  | nil =>
    intro post db c _
    have hpi : processItem env db bad = .error () := by simp [processItem, hbad]
    exact ⟨db, by simp [reconcileLoop, hpi]⟩
  | cons x xs ih =>
    intro post db c h
    obtain ⟨h1, h2⟩ := h x (by simp)
    obtain ⟨db1, o, hpi⟩ := processItem_ok env db x h1 h2
    obtain ⟨db', hl⟩ := ih post db1 (c.bump o) (fun i hi => h i (List.mem_cons_of_mem x hi))
    exact ⟨db', by simp [reconcileLoop, hpi, hl]⟩

/-- C2: for every remote item with a tracked record whose stored timestamp
parses, the change detector returns true if and only if the (possibly
offset-normalized) remote timestamp is strictly greater than the stored
one; equal timestamps yield false (skip) and a remote timestamp one second
later yields true (sync). -/
theorem C2_strict_monotonic_comparison :
    (∀ (remote lt : PyDatetime) (rec : TrackerRecord),
       rec.last_synced_update_time = .str (some lt) ∨
         rec.last_synced_update_time = .dt lt →
       should_sync_fn remote (some rec) = specNormalizedGt remote lt) ∧
    (∀ (d : PyDatetime) (rec : TrackerRecord),
       rec.last_synced_update_time = .str (some d) →
       should_sync_fn d (some rec) = false) ∧
    (∀ (d : PyDatetime) (rec : TrackerRecord),
       rec.last_synced_update_time = .str (some d) →
       should_sync_fn ⟨d.naive + 1, d.tz⟩ (some rec) = true) := by
  refine ⟨?_, ?_, ?_⟩
  · intro remote lt rec h
    rcases h with h | h <;> simp [should_sync_fn, h, compareTimes_eq_specNormalizedGt]
  · intro d rec h
    simp [should_sync_fn, h, compareTimes_self]
  · intro d rec h
    simp only [should_sync_fn, h]
    cases htz : d.tz <;> simp [compareTimes, htz, pyDatetimeGt]

/-- Witness for C2 at concrete timestamps: tracked time 100 and remote time
100 give false; remote time 100 + 1 gives true. -/
theorem C2_strict_monotonic_comparison_witness :
    should_sync_fn ⟨100, none⟩
      (some ⟨"A", "JIRA", .str (some ⟨100, none⟩), "d", "SUCCESS"⟩) = false ∧
    should_sync_fn ⟨100 + 1, none⟩
      (some ⟨"A", "JIRA", .str (some ⟨100, none⟩), "d", "SUCCESS"⟩) = true :=
  ⟨C2_strict_monotonic_comparison.2.1 ⟨100, none⟩
     ⟨"A", "JIRA", .str (some ⟨100, none⟩), "d", "SUCCESS"⟩ rfl,
   C2_strict_monotonic_comparison.2.2 ⟨100, none⟩
     ⟨"A", "JIRA", .str (some ⟨100, none⟩), "d", "SUCCESS"⟩ rfl⟩

/-- C3: when exactly one of the remote and stored timestamps carries an
offset, the comparison strips the offset from the offset-bearing side and
compares both as naive times, so an aware remote equal to the naive stored
time after stripping yields false and one second later yields true; when
both sides are naive or both carry offsets they are compared directly. -/
theorem C3_timezone_mixed_comparison :
    (∀ (remote lt : PyDatetime) (rec : TrackerRecord),
       remote.tz.isSome → lt.tz = none →
       rec.last_synced_update_time = .str (some lt) →
       should_sync_fn remote (some rec) = decide (remote.naive > lt.naive)) ∧
    (∀ (remote lt : PyDatetime) (rec : TrackerRecord),
       remote.tz = none → lt.tz.isSome →
       rec.last_synced_update_time = .str (some lt) →
       should_sync_fn remote (some rec) = decide (remote.naive > lt.naive)) ∧
    (∀ (remote lt : PyDatetime) (rec : TrackerRecord),
       remote.tz.isSome = lt.tz.isSome →
       rec.last_synced_update_time = .str (some lt) →
       should_sync_fn remote (some rec) = pyDatetimeGt remote lt) ∧
    (∀ (n o : Int) (rec : TrackerRecord),
       rec.last_synced_update_time = .str (some ⟨n, none⟩) →
       should_sync_fn ⟨n, some o⟩ (some rec) = false ∧
       should_sync_fn ⟨n + 1, some o⟩ (some rec) = true) := by
  refine ⟨?_, ?_, ?_, ?_⟩
  · intro remote lt rec h1 h2 h3
    cases hr : remote.tz with
    | none => rw [hr] at h1; simp at h1
    | some o =>
      simp [should_sync_fn, h3, compareTimes, hr, h2, pyDatetimeGt,
        PyDatetime.replaceTzNone]
  · intro remote lt rec h1 h2 h3
    cases hl : lt.tz with
    | none => rw [hl] at h2; simp at h2
    | some o =>
      simp [should_sync_fn, h3, compareTimes, hl, h1, pyDatetimeGt,
        PyDatetime.replaceTzNone]
  · intro remote lt rec h1 h2
    cases hr : remote.tz <;> cases hl : lt.tz
    · simp [should_sync_fn, h2, compareTimes, hr, hl]
    · rw [hr, hl] at h1; simp at h1
    · rw [hr, hl] at h1; simp at h1
    · simp [should_sync_fn, h2, compareTimes, hr, hl]
  · intro n o rec h
    constructor
    · simp [should_sync_fn, h, compareTimes, pyDatetimeGt, PyDatetime.replaceTzNone]
    · simp [should_sync_fn, h, compareTimes, pyDatetimeGt, PyDatetime.replaceTzNone]

/-- Witness for C3 at the spec's example: remote aware at wall-clock 36000
with offset 0, tracked naive at 36000, equal after stripping gives false
and one second later gives true. -/
theorem C3_timezone_mixed_comparison_witness :
    should_sync_fn ⟨36000, some 0⟩
      (some ⟨"P", "JIRA", .str (some ⟨36000, none⟩), "d", "SUCCESS"⟩) = false ∧
    should_sync_fn ⟨36000 + 1, some 0⟩
      (some ⟨"P", "JIRA", .str (some ⟨36000, none⟩), "d", "SUCCESS"⟩) = true :=
  C3_timezone_mixed_comparison.2.2.2 36000 0
    ⟨"P", "JIRA", .str (some ⟨36000, none⟩), "d", "SUCCESS"⟩ rfl

/-- C4: a remote item with no tracked record, or whose tracked record has a
stored timestamp string that fails to parse, always gets `true` from the
change detector; with the publisher returning normally, the item is then
processed to a non-skip outcome without raising. -/
theorem C4_fail_open :
    (∀ remote : PyDatetime, should_sync_fn remote none = true) ∧
    (∀ (remote : PyDatetime) (rec : TrackerRecord),
       rec.last_synced_update_time = .str none →
       should_sync_fn remote (some rec) = true) ∧
    (∀ (env : Env) (db : TrackerDB) (item : SyncItem) (remote : PyDatetime),
       item.updated_at = some remote →
       (get_sync_record env db item.id = none ∨
        ∃ rec, get_sync_record env db item.id = some rec ∧
          rec.last_synced_update_time = .str none) →
       pubReturns env item = true →
       ∃ db' o, processItem env db item = .ok (db', o) ∧ o ≠ Outcome.skipped) := by
  refine ⟨fun _ => rfl, ?_, ?_⟩
  · intro remote rec h
    simp [should_sync_fn, h]
  · intro env db item remote hup hrec hpub
    have hss : should_sync_fn remote (get_sync_record env db item.id) = true := by
      rcases hrec with h | ⟨rec, h, hparse⟩
      · rw [h]; rfl
      · rw [h]; simp [should_sync_fn, hparse]
    unfold pubReturns at hpub
    cases hp : env.publish item.id item.content with
    | raises => rw [hp] at hpub; simp at hpub
    | ret r =>
      by_cases htr : strTruthy r
      · exact ⟨update_sync_record env db item.id item.type remote (r.getD "") "SUCCESS",
          .synced, by simp [processItem, hup, hss, hp, htr], by simp⟩
      · exact ⟨update_sync_record env db item.id item.type remote "" "FAILED",
          .failed, by simp [processItem, hup, hss, hp, htr], by simp⟩

/-- Witness for C4: a fresh item with no tracked row and an item whose
tracked row has an unparsable stored timestamp both sync; processing the
fresh item under a publisher that returns an id yields a synced outcome. -/
theorem C4_fail_open_witness :
    should_sync_fn ⟨7, none⟩ none = true ∧
    should_sync_fn ⟨7, none⟩
      (some ⟨"B", "JIRA", .str none, "", "FAILED"⟩) = true ∧
    ∃ db' o,
      processItem ⟨fun _ _ => .ret (some "doc9"), fun _ => false, fun _ => false⟩ []
        ⟨"B", "JIRA", some ⟨7, none⟩, "body"⟩ = .ok (db', o) ∧ o ≠ Outcome.skipped :=
  ⟨C4_fail_open.1 ⟨7, none⟩,
   C4_fail_open.2.1 ⟨7, none⟩ ⟨"B", "JIRA", .str none, "", "FAILED"⟩ rfl,
   C4_fail_open.2.2 ⟨fun _ _ => .ret (some "doc9"), fun _ => false, fun _ => false⟩ []
     ⟨"B", "JIRA", some ⟨7, none⟩, "body"⟩ ⟨7, none⟩ rfl (Or.inl rfl) rfl⟩

theorem length_filter_split {α : Type} (p : α → Bool) (l : List α) :
    (l.filter p).length + (l.filter (fun a => !(p a))).length = l.length := by
  induction l with
  | nil => rfl
  | cons x xs ih =>
    by_cases h : p x <;> simp [List.filter_cons, h] <;> omega

/-- C1: over N fetched items that all need syncing, with the publisher
failing for exactly one item and succeeding for the others, the run
completes with synced = N - 1, failed = 1, skipped = 0, total = N and
status success; moreover a nonzero failed count never yields status error:
any run whose items all parse and whose publisher always returns normally
ends with a status other than error. -/
theorem C1_partial_failure_isolation (cfg : Config) (env : Env) (db : TrackerDB)
    (items : List SyncItem) (N : Nat)
    (hcfg : validate_config cfg = .ok ())
    (hN : items.length = N)
    (hnodup : (items.map SyncItem.id).Nodup)
    (hfresh : ∀ i ∈ items, i.updated_at.isSome ∧ pubReturns env i = true ∧
       env.readFails i.id = false ∧ dbLookup db i.id = none)
    (hone : (items.filter (fun i => !pubSucceeds env i)).length = 1) :
    ((run_sync cfg env db items).report.synced = N - 1 ∧
     (run_sync cfg env db items).report.failed = 1 ∧
     (run_sync cfg env db items).report.skipped = 0 ∧
     (run_sync cfg env db items).report.total = N ∧
     (run_sync cfg env db items).report.status = "success") ∧
    (∀ (env2 : Env) (db2 : TrackerDB) (items2 : List SyncItem),
       (∀ i ∈ items2, i.updated_at.isSome ∧ pubReturns env2 i = true) →
       (run_sync cfg env2 db2 items2).report.status ≠ "error") := by
  constructor
  · obtain ⟨db', hloop, -, -⟩ := freshLoop env items db ⟨0, 0, 0⟩ hnodup hfresh
    have hne : items ≠ [] := by
      intro h; rw [h] at hone; simp at hone
    have hemp : items.isEmpty = false := by
      cases items with
      | nil => exact absurd rfl hne
      | cons a l => rfl
    have hlen : (items.filter (fun i => pubSucceeds env i)).length +
        (items.filter (fun i => !pubSucceeds env i)).length = N := by
      have := length_filter_split (fun i => pubSucceeds env i) items
      simpa [hN] using this
    refine ⟨?_, ?_, ?_, ?_, ?_⟩ <;>
        simp only [run_sync, hcfg, hemp, Bool.false_eq_true, if_false, hloop, hN] <;>
        first
        | rfl
        | omega
  · intro env2 db2 items2 h2
    rw [run_sync_status_success cfg env2 db2 items2 hcfg h2]
    intro h; exact absurd h (by simp)

/-- Valid configuration used by concrete run-level witnesses. -/
def okConfig : Config :=
  ⟨some "https://x.atlassian.net", some "e@x.com", some "tok",
   some "key", some "https://api.dify.ai/v1", some "ds1"⟩

/-- Publisher environment where only item ``i2`` fails (returns ``None``). -/
def w1env : Env :=
  ⟨fun n _ => if n == "i2" then .ret none else .ret (some "d"),
   fun _ => false, fun _ => false⟩

/-- Three fresh items, the second of which the publisher rejects. -/
def w1items : List SyncItem :=
  [⟨"i1", "JIRA", some ⟨10, none⟩, "a"⟩,
   ⟨"i2", "JIRA", some ⟨20, none⟩, "b"⟩,
   ⟨"i3", "CONFLUENCE", some ⟨30, none⟩, "c"⟩]

/-- Witness for C1: three items, publisher fails on the second only, giving
synced = 2, failed = 1, skipped = 0, total = 3, status success. -/
theorem C1_partial_failure_isolation_witness :
    (run_sync okConfig w1env [] w1items).report.synced = 3 - 1 ∧
    (run_sync okConfig w1env [] w1items).report.failed = 1 ∧
    (run_sync okConfig w1env [] w1items).report.skipped = 0 ∧
    (run_sync okConfig w1env [] w1items).report.total = 3 ∧
    (run_sync okConfig w1env [] w1items).report.status = "success" := by
  have h := C1_partial_failure_isolation okConfig w1env [] w1items 3
    (by decide) rfl (by decide) (by decide) (by decide)
  exact h.1

theorem pubSucceeds_returns (env : Env) (i : SyncItem) (h : pubSucceeds env i = true) :
    pubReturns env i = true := by
  unfold pubSucceeds at h
  unfold pubReturns
  cases hp : env.publish i.id i.content with
  | ret r => rfl
  | raises => rw [hp] at h; simp at h

/-- Configuration with `DIFY_API_KEY` unset and `ATLASSIAN_URL` still a
placeholder value. -/
def c5cfg : Config :=
  ⟨some "your-domain.atlassian.net", some "e@x.com", some "tok",
   none, some "https://api.dify.ai/v1", some "ds1"⟩

/-- Environment whose oracles are never consulted. -/
def idleEnv : Env := ⟨fun _ _ => .raises, fun _ => false, fun _ => false⟩

/-- C5 counterexample: with `DIFY_API_KEY` unset and `ATLASSIAN_URL` still a
placeholder, the run aborts with status error, but the raised error
enumerates only the missing name: the offending placeholder setting
`ATLASSIAN_URL` is absent from the enumeration, so the message does not
enumerate every offending setting. -/
theorem C5_config_abort_counterexample :
    validate_config c5cfg = .error (.missingErr ["DIFY_API_KEY"]) ∧
    invalidNames c5cfg = ["ATLASSIAN_URL"] ∧
    "ATLASSIAN_URL" ∉ (ConfigError.missingErr ["DIFY_API_KEY"]).enumerated ∧
    (run_sync c5cfg idleEnv [] []).report.status = "error" := by
  refine ⟨by decide, by decide, by decide, by decide⟩

/-- C5 (amended): any missing or placeholder setting aborts the run before
any fetch, with status error, zero counts and a non-null error message;
the message enumerates every missing setting when at least one is missing,
and otherwise every placeholder setting (placeholder names are omitted
whenever some setting is also missing). -/
theorem C5_config_abort (cfg : Config) (env : Env) (db : TrackerDB)
    (items : List SyncItem)
    (hbad : missingNames cfg ≠ [] ∨ invalidNames cfg ≠ []) :
    ∃ e, validate_config cfg = .error e ∧
      e.enumerated =
        (if missingNames cfg = [] then invalidNames cfg else missingNames cfg) ∧
      (run_sync cfg env db items).report.status = "error" ∧
      (run_sync cfg env db items).report.synced = 0 ∧
      (run_sync cfg env db items).report.skipped = 0 ∧
      (run_sync cfg env db items).report.failed = 0 ∧
      (run_sync cfg env db items).report.total = 0 ∧
      (run_sync cfg env db items).report.error ≠ none ∧
      (run_sync cfg env db items).fetched = false := by
  by_cases hm : missingNames cfg = []
  · have hv : invalidNames cfg ≠ [] := by
      rcases hbad with h | h
      · exact absurd hm h
      · exact h
    have hval : validate_config cfg = .error (.invalidErr (invalidNames cfg)) := by
      simp [validate_config, hm, hv]
    refine ⟨.invalidErr (invalidNames cfg), hval, ?_, ?_, ?_, ?_, ?_, ?_, ?_⟩ <;>
      simp [run_sync, hval, ConfigError.enumerated, hm]
  · have hval : validate_config cfg = .error (.missingErr (missingNames cfg)) := by
      simp [validate_config, hm]
    refine ⟨.missingErr (missingNames cfg), hval, ?_, ?_, ?_, ?_, ?_, ?_, ?_⟩ <;>
      simp [run_sync, hval, ConfigError.enumerated, hm]

/-- Configuration whose only defect is an unset `DIFY_API_KEY`. -/
def c5w : Config :=
  ⟨some "https://x.atlassian.net", some "e@x.com", some "tok",
   none, some "https://api.dify.ai/v1", some "ds1"⟩

/-- Witness for the amended C5: an unset `DIFY_API_KEY` aborts the run
before any fetch with status error, zero counts, a non-null error whose
enumeration is exactly the missing name. -/
theorem C5_config_abort_witness :
    ∃ e, validate_config c5w = .error e ∧
      e.enumerated =
        (if missingNames c5w = [] then invalidNames c5w else missingNames c5w) ∧
      (run_sync c5w idleEnv [] []).report.status = "error" ∧
      (run_sync c5w idleEnv [] []).report.synced = 0 ∧
      (run_sync c5w idleEnv [] []).report.skipped = 0 ∧
      (run_sync c5w idleEnv [] []).report.failed = 0 ∧
      (run_sync c5w idleEnv [] []).report.total = 0 ∧
      (run_sync c5w idleEnv [] []).report.error ≠ none ∧
      (run_sync c5w idleEnv [] []).fetched = false :=
  C5_config_abort c5w idleEnv [] [] (Or.inl (by decide))

/-- C6: when the publisher returns no identifier for an item due for sync,
the orchestrator upserts the tracker record with status FAILED, an empty
destination document id and the item's remote timestamp; since the
timestamp is rewritten even on failure, a subsequent run over the same item
with an unchanged remote timestamp skips it instead of retrying. -/
theorem C6_failure_advances_timestamp (env : Env) (db : TrackerDB) (item : SyncItem)
    (remote : PyDatetime)
    (hup : item.updated_at = some remote)
    (hpub : env.publish item.id item.content = .ret none)
    (hr : env.readFails item.id = false)
    (hw : env.writeFails item.id = false)
    (hsync : should_sync_fn remote (get_sync_record env db item.id) = true) :
    processItem env db item =
      .ok (dbUpsert db ⟨item.id, item.type, .str (some remote), "", "FAILED"⟩, .failed) ∧
    dbLookup (dbUpsert db ⟨item.id, item.type, .str (some remote), "", "FAILED"⟩) item.id =
      some ⟨item.id, item.type, .str (some remote), "", "FAILED"⟩ ∧
    processItem env (dbUpsert db ⟨item.id, item.type, .str (some remote), "", "FAILED"⟩) item =
      .ok (dbUpsert db ⟨item.id, item.type, .str (some remote), "", "FAILED"⟩, .skipped) := by
  have hupd : update_sync_record env db item.id item.type remote "" "FAILED" =
      dbUpsert db ⟨item.id, item.type, .str (some remote), "", "FAILED"⟩ := by
    simp [update_sync_record, hw]
  have h1 : processItem env db item =
      .ok (update_sync_record env db item.id item.type remote "" "FAILED", .failed) := by
    simp [processItem, hup, hsync, hpub, strTruthy]
  have hlk : dbLookup (dbUpsert db ⟨item.id, item.type, .str (some remote), "", "FAILED"⟩)
      item.id = some ⟨item.id, item.type, .str (some remote), "", "FAILED"⟩ :=
    dbLookup_upsert_self db ⟨item.id, item.type, .str (some remote), "", "FAILED"⟩
  refine ⟨by rw [h1, hupd], hlk, ?_⟩
  have hget : get_sync_record env
      (dbUpsert db ⟨item.id, item.type, .str (some remote), "", "FAILED"⟩) item.id =
      some ⟨item.id, item.type, .str (some remote), "", "FAILED"⟩ := by
    simp [get_sync_record, hr, hlk]
  simp [processItem, hup, hget, should_sync_fn, compareTimes_self]

/-- Environment whose publisher always answers ``None`` and whose store
never fails. -/
def c6env : Env := ⟨fun _ _ => .ret none, fun _ => false, fun _ => false⟩

/-- Item used by the C6 witness. -/
def c6item : SyncItem := ⟨"F", "JIRA", some ⟨40, none⟩, "w"⟩

/-- Witness for C6: a fresh item whose publish fails is recorded as FAILED
with an empty id and the remote timestamp, and is skipped when processed
again. -/
theorem C6_failure_advances_timestamp_witness :
    processItem c6env [] c6item =
      .ok (dbUpsert [] ⟨"F", "JIRA", .str (some ⟨40, none⟩), "", "FAILED"⟩, .failed) ∧
    dbLookup (dbUpsert [] ⟨"F", "JIRA", .str (some ⟨40, none⟩), "", "FAILED"⟩) "F" =
      some ⟨"F", "JIRA", .str (some ⟨40, none⟩), "", "FAILED"⟩ ∧
    processItem c6env (dbUpsert [] ⟨"F", "JIRA", .str (some ⟨40, none⟩), "", "FAILED"⟩)
        c6item =
      .ok (dbUpsert [] ⟨"F", "JIRA", .str (some ⟨40, none⟩), "", "FAILED"⟩, .skipped) :=
  C6_failure_advances_timestamp c6env [] c6item ⟨40, none⟩ rfl rfl rfl rfl rfl

/-- Environment whose publisher succeeds but whose tracker writes all
fail. -/
def c7env : Env := ⟨fun _ _ => .ret (some "doc1"), fun _ => false, fun _ => true⟩

/-- Item used by the C7 counterexample. -/
def c7item : SyncItem := ⟨"A", "JIRA", some ⟨100, none⟩, "body"⟩

/-- C7 counterexample: with the tracker write failing after a successful
publish, the item is still processed to outcome synced — not failed — and
the table is left unchanged, so a write failure is not treated as a
publish-level failure. -/
theorem C7_write_failure_counterexample :
    processItem c7env [] c7item = .ok ([], .synced) ∧
    Outcome.synced ≠ Outcome.failed := by
  refine ⟨by decide, by decide⟩

/-- C7 (amended): a tracker store failure on the write after a successful
publish is swallowed (logged only): the item is still counted as synced and
the table is unchanged; a store failure on read is treated as no prior
record, which makes the change detector force a resync. -/
theorem C7_store_failure_policy (env : Env) (db : TrackerDB) (item : SyncItem)
    (remote : PyDatetime)
    (hup : item.updated_at = some remote)
    (hw : env.writeFails item.id = true)
    (hpub : pubSucceeds env item = true)
    (hsync : should_sync_fn remote (get_sync_record env db item.id) = true) :
    processItem env db item = .ok (db, .synced) ∧
    (∀ (env2 : Env) (db2 : TrackerDB) (id : String), env2.readFails id = true →
       get_sync_record env2 db2 id = none ∧ should_sync_fn remote none = true) := by
  unfold pubSucceeds at hpub
  cases hp : env.publish item.id item.content with
  | raises => rw [hp] at hpub; simp at hpub
  | ret r =>
    have htr : strTruthy r = true := by rw [hp] at hpub; exact hpub
    refine ⟨?_, fun env2 db2 id h => ⟨by simp [get_sync_record, h], rfl⟩⟩
    simp [processItem, hup, hsync, hp, htr, update_sync_record, hw]

/-- Witness for the amended C7: the concrete write-failing environment
still yields a synced outcome with an unchanged table, and a read-failing
environment reports no record. -/
theorem C7_store_failure_policy_witness :
    processItem c7env [] c7item = .ok ([], .synced) ∧
    (∀ (env2 : Env) (db2 : TrackerDB) (id : String), env2.readFails id = true →
       get_sync_record env2 db2 id = none ∧
       should_sync_fn ⟨100, none⟩ none = true) :=
  C7_store_failure_policy c7env [] c7item ⟨100, none⟩ rfl rfl rfl rfl

/-- Environment whose publisher always returns the id ``doc`` and whose
store never fails. -/
def c8env : Env := ⟨fun _ _ => .ret (some "doc"), fun _ => false, fun _ => false⟩

/-- Item whose remote timestamp fails to parse (``isoparse`` raises). -/
def c8bad : SyncItem := ⟨"B1", "JIRA", none, "x"⟩

/-- Well-formed item following the bad one. -/
def c8good : SyncItem := ⟨"B2", "JIRA", some ⟨5, none⟩, "y"⟩

/-- C8 counterexample: with a first item whose remote updatedAt cannot be
parsed, the whole run aborts with status error and zero counts; the
remaining item is never processed — its id is absent from the tracker
table — even though processing it alone would have succeeded. -/
theorem C8_item_exception_counterexample :
    (run_sync okConfig c8env [] [c8bad, c8good]).report.status = "error" ∧
    (run_sync okConfig c8env [] [c8bad, c8good]).report.synced = 0 ∧
    (run_sync okConfig c8env [] [c8bad, c8good]).report.skipped = 0 ∧
    (run_sync okConfig c8env [] [c8bad, c8good]).report.failed = 0 ∧
    (run_sync okConfig c8env [] [c8bad, c8good]).report.total = 0 ∧
    dbLookup (run_sync okConfig c8env [] [c8bad, c8good]).db "B2" = none ∧
    processItem c8env [] c8good =
      .ok ([⟨"B2", "JIRA", .str (some ⟨5, none⟩), "doc", "SUCCESS"⟩], .synced) := by
  refine ⟨by decide, by decide, by decide, by decide, by decide, by decide, by decide⟩

/-- C8 (amended): a publisher failure signalled by a ``None`` return does
not abort the loop — when every item parses and every publisher call
returns normally, the run completes with status success and per-item
totals — but an exception while processing one item (an unparsable remote
updatedAt, or the publisher raising) aborts the entire run: the remaining
items are not processed and the report carries status error with zero
counts. -/
theorem C8_loop_isolation (cfg : Config) (env : Env)
    (hcfg : validate_config cfg = .ok ()) :
    (∀ (db : TrackerDB) (items : List SyncItem), items ≠ [] →
       (∀ i ∈ items, i.updated_at.isSome ∧ pubReturns env i = true) →
       (run_sync cfg env db items).report.status = "success" ∧
       (run_sync cfg env db items).report.total = items.length) ∧
    (∀ (db : TrackerDB) (pre post : List SyncItem) (bad : SyncItem),
       (∀ i ∈ pre, i.updated_at.isSome ∧ pubReturns env i = true) →
       bad.updated_at = none →
       (run_sync cfg env db (pre ++ bad :: post)).report.status = "error" ∧
       (run_sync cfg env db (pre ++ bad :: post)).report.synced = 0 ∧
       (run_sync cfg env db (pre ++ bad :: post)).report.skipped = 0 ∧
       (run_sync cfg env db (pre ++ bad :: post)).report.failed = 0 ∧
       (run_sync cfg env db (pre ++ bad :: post)).report.total = 0) := by
  constructor
  · intro db items hne h
    have hemp : items.isEmpty = false := by
      cases items with
      | nil => exact absurd rfl hne
      | cons a l => rfl
    obtain ⟨db', c', hl⟩ := loopCompletes env items db ⟨0, 0, 0⟩ h
    constructor <;> simp [run_sync, hcfg, hemp, hl]
  · intro db pre post bad hpre hbad
    obtain ⟨db', hl⟩ := loopAborts env bad hbad pre post db ⟨0, 0, 0⟩ hpre
    have hemp : (pre ++ bad :: post).isEmpty = false := by
      cases pre with
      | nil => rfl
      | cons a l => rfl
    refine ⟨?_, ?_, ?_, ?_, ?_⟩ <;> simp [run_sync, hcfg, hemp, hl]

/-- Witness for the amended C8: a run whose first item has an unparsable
remote timestamp aborts with status error, while the run over just the
well-formed item succeeds. -/
theorem C8_loop_isolation_witness :
    (run_sync okConfig c8env [] ([] ++ c8bad :: [c8good])).report.status = "error" ∧
    (run_sync okConfig c8env [] [c8good]).report.status = "success" := by
  have h := C8_loop_isolation okConfig c8env (by decide)
  exact ⟨(h.2 [] [] [c8good] c8bad (by decide) rfl).1,
         (h.1 [] [c8good] (by decide) (by decide)).1⟩

/-- C9: if a full run from an empty tracker table succeeds for every item
(all published with SUCCESS), an immediately repeated run over the same
items with unchanged remote timestamps yields synced = 0, failed = 0 and
skipped = total on the second run. -/
theorem C9_idempotent_rerun (cfg : Config) (env : Env) (items : List SyncItem)
    (hcfg : validate_config cfg = .ok ())
    (hnodup : (items.map SyncItem.id).Nodup)
    (hok : ∀ i ∈ items, i.updated_at.isSome ∧ pubSucceeds env i = true ∧
       env.readFails i.id = false ∧ env.writeFails i.id = false) :
    (run_sync cfg env [] items).report.synced = (run_sync cfg env [] items).report.total ∧
    (run_sync cfg env [] items).report.failed = 0 ∧
    (run_sync cfg env (run_sync cfg env [] items).db items).report.synced = 0 ∧
    (run_sync cfg env (run_sync cfg env [] items).db items).report.failed = 0 ∧
    (run_sync cfg env (run_sync cfg env [] items).db items).report.skipped =
      (run_sync cfg env (run_sync cfg env [] items).db items).report.total := by
  by_cases hempty : items = []
  · subst hempty
    refine ⟨?_, ?_, ?_, ?_, ?_⟩ <;> simp [run_sync, hcfg]
  · have hne : items.isEmpty = false := by
      cases items with
      | nil => exact absurd rfl hempty
      | cons a l => rfl
    have hfresh : ∀ i ∈ items, i.updated_at.isSome ∧ pubReturns env i = true ∧
        env.readFails i.id = false ∧ dbLookup [] i.id = none := by
      intro i hi
      obtain ⟨a, b, cc, d⟩ := hok i hi
      exact ⟨a, pubSucceeds_returns env i b, cc, rfl⟩
    obtain ⟨db1, hloop, hpres, hrec⟩ := freshLoop env items [] ⟨0, 0, 0⟩ hnodup hfresh
    have hfilter : items.filter (fun i => pubSucceeds env i) = items :=
      List.filter_eq_self.mpr (fun i hi => (hok i hi).2.1)
    have hsplit := length_filter_split (fun i => pubSucceeds env i) items
    have hq : (items.filter (fun i => !pubSucceeds env i)).length = 0 := by
      rw [hfilter] at hsplit; omega
    have hdb1 : (run_sync cfg env [] items).db = db1 := by
      simp [run_sync, hcfg, hne, hloop]
    have hskip : ∀ i ∈ items, ∃ t, i.updated_at = some t ∧
        should_sync_fn t (get_sync_record env db1 i.id) = false := by
      intro i hi
      obtain ⟨a, b, cc, d⟩ := hok i hi
      obtain ⟨t, dd, ht, hlk⟩ := hrec i hi b d
      refine ⟨t, ht, ?_⟩
      rw [get_sync_record, if_neg (by simp [cc]), hlk]
      simp [should_sync_fn, compareTimes_self]
    have hloop2 := skipLoop env items db1 ⟨0, 0, 0⟩ hskip
    rw [hdb1]
    refine ⟨?_, ?_, ?_, ?_, ?_⟩ <;>
      simp [run_sync, hcfg, hne, hloop, hloop2, hfilter, hq]

/-- Witness for C9: three items all publishing successfully give a first
run with synced = total and a second run with synced = 0, failed = 0,
skipped = total. -/
theorem C9_idempotent_rerun_witness :
    (run_sync okConfig c8env [] w1items).report.synced =
      (run_sync okConfig c8env [] w1items).report.total ∧
    (run_sync okConfig c8env [] w1items).report.failed = 0 ∧
    (run_sync okConfig c8env (run_sync okConfig c8env [] w1items).db w1items).report.synced
      = 0 ∧
    (run_sync okConfig c8env (run_sync okConfig c8env [] w1items).db w1items).report.failed
      = 0 ∧
    (run_sync okConfig c8env (run_sync okConfig c8env [] w1items).db w1items).report.skipped
      = (run_sync okConfig c8env
          (run_sync okConfig c8env [] w1items).db w1items).report.total :=
  C9_idempotent_rerun okConfig c8env w1items (by decide) (by decide) (by decide)

/-- C10: a successful destination response with no extractable document id
makes the publisher return the sentinel ``uploaded_without_id`` rather than
``None``; the orchestrator then counts the item as synced and stores the
sentinel as the destination document id — success without an id is never
reported as failure at the publisher interface. -/
theorem C10_sentinel_id (r : DifyJson) (env : Env) (db : TrackerDB) (item : SyncItem)
    (remote : PyDatetime)
    (hext : strTruthy (extractDocId r) = false)
    (hup : item.updated_at = some remote)
    (hsync : should_sync_fn remote (get_sync_record env db item.id) = true)
    (hpub : env.publish item.id item.content =
      .ret (upload_document_to_dify true (.success r)))
    (hw : env.writeFails item.id = false) :
    upload_document_to_dify true (.success r) = some "uploaded_without_id" ∧
    upload_document_to_dify true (.success r) ≠ none ∧
    processItem env db item =
      .ok (dbUpsert db ⟨item.id, item.type, .str (some remote), "uploaded_without_id",
        "SUCCESS"⟩, .synced) := by
  have hu : upload_document_to_dify true (.success r) = some "uploaded_without_id" := by
    simp [upload_document_to_dify, hext]
  refine ⟨hu, by rw [hu]; simp, ?_⟩
  rw [hu] at hpub
  have htr : strTruthy (some "uploaded_without_id") = true := by decide
  simp [processItem, hup, hsync, hpub, htr, update_sync_record, hw, Option.getD]

/-- Dify response carrying none of the three id fields. -/
def c10r : DifyJson := ⟨none, none, none⟩

/-- Environment whose publisher relays the Dify client's answer for the
id-less successful response. -/
def c10env : Env :=
  ⟨fun _ _ => .ret (upload_document_to_dify true (.success c10r)),
   fun _ => false, fun _ => false⟩

/-- Item used by the C10 witness. -/
def c10item : SyncItem := ⟨"D", "JIRA", some ⟨50, none⟩, "z"⟩

/-- Witness for C10: the id-less successful response yields the sentinel
and a synced tracker row storing it. -/
theorem C10_sentinel_id_witness :
    upload_document_to_dify true (.success c10r) = some "uploaded_without_id" ∧
    upload_document_to_dify true (.success c10r) ≠ none ∧
    processItem c10env [] c10item =
      .ok (dbUpsert [] ⟨"D", "JIRA", .str (some ⟨50, none⟩), "uploaded_without_id",
        "SUCCESS"⟩, .synced) :=
  C10_sentinel_id c10r c10env [] c10item ⟨50, none⟩ (by decide) rfl rfl rfl rfl
